import Mathlib

/-!
Verification development for the segment-v2 page I/O layer and the scan
iterator contracts of the storage engine.

The definitions below are a shallow embedding of
`be/src/olap/rowset/segment_v2/page_io.cpp` and of the scan-iterator
contracts declared in `be/src/olap/rowset/segment_v2/segment_iterator.h`
and `be/src/olap/tablet_reader.h`.

Modelling conventions:
- machine bytes are `Nat` values (well-formed inputs are `< 256`);
  a byte buffer is a `List Nat`; a slice vector is a `List (List Nat)`;
- `uint32`/`uint64` arithmetic is `Nat` with explicit bounds where the
  width matters;
- the protobuf footer message (`PageFooterPB`, an external generated
  collaborator) is modelled by an executable fixed-width serializer and
  parser with the roundtrip property protobuf provides;
- CRC32C (`util/crc32c.h`, an external collaborator) is modelled by the
  standard reflected CRC-32C bit algorithm (polynomial 0x82F63B78);
- fallible collaborator calls (codec compress/decompress, pre-decoder)
  return `Except Unit`; their own failures surface as a non-corruption
  status, matching the propagation of `RETURN_IF_ERROR`;
- the `double` config value `min_space_saving` is modelled as an exact
  rational; the comparison `space_saving > 0 && space_saving >= min` is
  rendered in exact arithmetic (for `uncompressed_size = 0` the IEEE
  comparison on NaN or -inf is false, which the rendering preserves);
- stateful effects that no claim observes (runtime counters, timers,
  page-cache insertion, logging) are dropped;
- the page cache is represented by the lookup result for the page key
  (`Option (List Nat)`), and the writer by the byte list already appended.
-/

/-! ### Little-endian fixed-width coding (util/coding.h collaborators) -/

def encode_fixed32_le (x : Nat) : List Nat :=
  [x % 256, x / 256 % 256, x / 65536 % 256, x / 16777216 % 256]

def decode_fixed32_le (l : List Nat) : Nat :=
  l.getD 0 0 + 256 * l.getD 1 0 + 65536 * l.getD 2 0 + 16777216 * l.getD 3 0

def encode_fixed64_le (x : Nat) : List Nat :=
  [x % 256, x / 256 % 256, x / 65536 % 256, x / 16777216 % 256,
   x / 4294967296 % 256, x / 1099511627776 % 256,
   x / 281474976710656 % 256, x / 72057594037927936 % 256]

def decode_fixed64_le (l : List Nat) : Nat :=
  l.getD 0 0 + 256 * l.getD 1 0 + 65536 * l.getD 2 0 + 16777216 * l.getD 3 0 +
  4294967296 * l.getD 4 0 + 1099511627776 * l.getD 5 0 +
  281474976710656 * l.getD 6 0 + 72057594037927936 * l.getD 7 0

/-! ### CRC32C (util/crc32c.h collaborator): reflected bit algorithm -/

def crc32cPoly : Nat := 0x82F63B78

def crcRound (s : Nat) : Nat :=
  if s % 2 = 1 then (s / 2) ^^^ crc32cPoly else s / 2

def crcShift8 (s : Nat) : Nat :=
  crcRound (crcRound (crcRound (crcRound (crcRound (crcRound (crcRound (crcRound s)))))))

def crcByteStep (s b : Nat) : Nat := crcShift8 (s ^^^ b)

def crc32cAux (s : Nat) (l : List Nat) : Nat := l.foldl crcByteStep s

def crc32c (l : List Nat) : Nat := crc32cAux 0xFFFFFFFF l ^^^ 0xFFFFFFFF

/-! ### PageFooterPB (gen_cpp/segment_v2.pb.h collaborator) -/

inductive PageTypePB where
  | UNKNOWN_PAGE_TYPE
  | DATA_PAGE
  | INDEX_PAGE
  | DICTIONARY_PAGE
  | SHORT_KEY_PAGE
deriving DecidableEq, Repr

/-- The page footer message. `data_page_footer` carries the only field of
the data-page sub-message the embedded code reads (`nullmap_size`); the
other three sub-messages carry no field the code reads, so only their
presence is modelled. -/
structure PageFooterPB where
  type : Option PageTypePB := none
  uncompressed_size : Option Nat := none
  data_page_footer : Option Nat := none
  index_page_footer : Bool := false
  dict_page_footer : Bool := false
  short_key_page_footer : Bool := false
deriving DecidableEq, Repr

def pageTypeCode : PageTypePB → Nat
  | .UNKNOWN_PAGE_TYPE => 0
  | .DATA_PAGE => 1
  | .INDEX_PAGE => 2
  | .DICTIONARY_PAGE => 3
  | .SHORT_KEY_PAGE => 4

def codePageType : Nat → Option PageTypePB
  | 0 => some .UNKNOWN_PAGE_TYPE
  | 1 => some .DATA_PAGE
  | 2 => some .INDEX_PAGE
  | 3 => some .DICTIONARY_PAGE
  | 4 => some .SHORT_KEY_PAGE
  | _ => none

def boolBit (b : Bool) : Nat := if b then 1 else 0

/-- Model of `PageFooterPB::SerializeToString`: an executable injective
encoding standing in for the protobuf wire format (23 bytes: presence
byte and code for `type`, presence byte and 8-byte LE value for
`uncompressed_size`, presence byte and 8-byte LE value for the data-page
sub-message, and one presence byte for each remaining sub-message). -/
def serializeFooterPB (f : PageFooterPB) : List Nat :=
  [boolBit f.type.isSome,
   (match f.type with | some t => pageTypeCode t | none => 0),
   boolBit f.uncompressed_size.isSome] ++
  encode_fixed64_le (f.uncompressed_size.getD 0) ++
  [boolBit f.data_page_footer.isSome] ++
  encode_fixed64_le (f.data_page_footer.getD 0) ++
  [boolBit f.index_page_footer, boolBit f.dict_page_footer, boolBit f.short_key_page_footer]

/-- Model of `PageFooterPB::ParseFromString` on the layout of
`serializeFooterPB`. -/
def parseFooterPB (l : List Nat) : Option PageFooterPB :=
  if l.length = 23 then
    let tp := l.getD 0 0
    let tc := l.getD 1 0
    let up := l.getD 2 0
    let usv := decode_fixed64_le ((l.drop 3).take 8)
    let dp := l.getD 11 0
    let nmv := decode_fixed64_le ((l.drop 12).take 8)
    let ib := l.getD 20 0
    let db := l.getD 21 0
    let sb := l.getD 22 0
    if tp ≤ 1 ∧ up ≤ 1 ∧ dp ≤ 1 ∧ ib ≤ 1 ∧ db ≤ 1 ∧ sb ≤ 1 then
      match (if tp = 1 then (codePageType tc).map some else some none) with
      | none => none
      | some tf =>
        some { type := tf,
               uncompressed_size := if up = 1 then some usv else none,
               data_page_footer := if dp = 1 then some nmv else none,
               index_page_footer := ib = 1,
               dict_page_footer := db = 1,
               short_key_page_footer := sb = 1 }
    else none
  else none

/-- Well-formedness of a footer value as a protobuf message: the numeric
fields fit in `uint64`. -/
def wfFooter (f : PageFooterPB) : Bool :=
  decide (f.uncompressed_size.getD 0 < 2 ^ 64) && decide (f.data_page_footer.getD 0 < 2 ^ 64)

/-! ### Status outcomes -/

inductive CorruptionReason where
  | tooSmall
  | checksumMismatch
  | badFooter
  | noCodec
  | sizeMismatch
deriving DecidableEq, Repr

inductive PageReadResult where
  | ok (body : List Nat) (footer : PageFooterPB)
  | corruption (r : CorruptionReason)
  | ioError
deriving DecidableEq, Repr

/-! ### PageIO data model -/

structure PagePointer where
  offset : Nat
  size : Nat
deriving DecidableEq, Repr

/-- A block-compression codec collaborator (util/block_compression.h).
`exceed_max_compress_len` is `totalSize > maxCompressLen`. -/
structure Codec where
  maxCompressLen : Nat
  compress : List Nat → Except Unit (List Nat)
  decompress : List Nat → Nat → Except Unit (List Nat)

structure PageReadOptions where
  verify_checksum : Bool
  use_page_cache : Bool
  codec : Option Codec
  pre_decode : Bool
  preDecoder : Option (List Nat → Nat → Except Unit (List Nat))
  page_pointer : PagePointer

/-- Model of `Slice::compute_total_size`. -/
def compute_total_size (body : List (List Nat)) : Nat := (body.map List.length).sum

/-! ### PageIO::compress_page_body -/

/-- The acceptance test `space_saving > 0 && space_saving >= min_space_saving`
where `space_saving = 1.0 - compressed/uncompressed` is computed in
`double`. Rendered in exact integer arithmetic: for `0 < u` the test is
equivalent to `c < u && min_space_saving * u <= u - c`; for `u = 0` the
IEEE comparisons on NaN or -inf are false, matching `c < u = false`. -/
def spaceSavingOk (c u : Nat) (minSaving : Rat) : Bool :=
  decide (c < u) && decide (minSaving.num * (u : Int) ≤ ((u : Int) - (c : Int)) * (minSaving.den : Int))

def compress_page_body (codec : Option Codec) (min_space_saving : Rat)
    (body : List (List Nat)) : Except Unit (List Nat) :=
  let uncompressed_size := compute_total_size body
  match codec with
  | some c =>
    if uncompressed_size ≤ c.maxCompressLen then
      match c.compress body.flatten with
      | .error e => .error e
      | .ok buf => if spaceSavingOk buf.length uncompressed_size min_space_saving then .ok buf else .ok []
    else .ok []
  | none => .ok []

/-! ### PageIO::write_page -/

/-- The footer sanity `CHECK`s at the top of `write_page` (fatal
programmer-error assertions). -/
def footerOk (f : PageFooterPB) : Bool :=
  f.type.isSome && f.uncompressed_size.isSome &&
  (match f.type with
   | some .DATA_PAGE => f.data_page_footer.isSome
   | some .INDEX_PAGE => f.index_page_footer
   | some .DICTIONARY_PAGE => f.dict_page_footer
   | some .SHORT_KEY_PAGE => f.short_key_page_footer
   | _ => false)

/-- The bytes covered by the checksum: body slices, serialized footer, and
the footer length as 4 bytes LE (`footer_buf` after `put_fixed32_le`). -/
def pageChecksumInput (body : List (List Nat)) (footer : PageFooterPB) : List Nat :=
  body.flatten ++ serializeFooterPB footer ++ encode_fixed32_le (serializeFooterPB footer).length

/-- The full on-disk image of one page. -/
def pageBytes (body : List (List Nat)) (footer : PageFooterPB) : List Nat :=
  pageChecksumInput body footer ++ encode_fixed32_le (crc32c (pageChecksumInput body footer))

/-- Model of `PageIO::write_page`. The writer is the byte list already
appended (`bytes_appended` is its length); a failed `CHECK` is `none`.
Returns the file contents after the vectored append and the resulting
`PagePointer`. -/
def write_page (file : List Nat) (body : List (List Nat)) (footer : PageFooterPB) :
    Option (List Nat × PagePointer) :=
  if footerOk footer then
    some (file ++ pageBytes body footer,
          { offset := file.length, size := (pageBytes body footer).length })
  else none

/-! ### PageIO::read_and_decompress_page_ -/

/-- Footer length read from the trailing 4 bytes of a checksum-stripped
page slice (`decode_fixed32_le((uint8_t*)data + size - 4)`). -/
def cachedFooterSize (ps : List Nat) : Nat :=
  decode_fixed32_le (ps.drop (ps.length - 4))

/-- The serialized-footer window of a checksum-stripped page slice
(the `footer_size` bytes that precede the footer-length field). The C++
reads it unchecked; a window that would fall outside the buffer is
represented by the empty list, which never parses. -/
def cachedFooterBytes (ps : List Nat) : List Nat :=
  (ps.take (ps.length - 4)).drop (ps.length - 4 - cachedFooterSize ps)

/-- Body portion of a checksum-stripped page slice:
`Slice(data, size - 4 - footer_size)`. -/
def cachedBody (ps : List Nat) : List Nat :=
  ps.take (ps.length - 4 - cachedFooterSize ps)

/-- The page-cache hit path of `read_and_decompress_page_` (lines 138-154):
parse body and footer straight out of the cached slice. -/
def readCacheHit (ps : List Nat) : PageReadResult :=
  if cachedFooterSize ps + 4 ≤ ps.length then
    match parseFooterPB (cachedFooterBytes ps) with
    | none => .corruption .badFooter
    | some f => .ok (cachedBody ps) f
  else .corruption .badFooter

/-- Trailing steps shared by the compressed and raw paths: the optional
pre-decoder (encoding_info collaborator), then the final body slice
`Slice(data, size - 4 - footer_size)`. -/
def finalizePage (opts : PageReadOptions) (slice : List Nat) (fs : Nat)
    (f : PageFooterPB) : PageReadResult :=
  if opts.pre_decode then
    match opts.preDecoder with
    | some pd =>
      match pd slice (f.data_page_footer.getD 0 + fs + 4) with
      | .error _ => .ioError
      | .ok s2 => .ok (s2.take (s2.length - 4 - fs)) f
    | none => .ok (slice.take (slice.length - 4 - fs)) f
  else .ok (slice.take (slice.length - 4 - fs)) f

/-- The decompression branch (`body_size != footer->uncompressed_size()`):
require a codec, decompress, check the decompressed length, and rebuild
the page as decompressed body followed by the footer and length tail. -/
def decompressPath (opts : PageReadOptions) (p4 : List Nat) (f : PageFooterPB) : PageReadResult :=
  match opts.codec with
  | none => .corruption .noCodec
  | some c =>
    let fs := cachedFooterSize p4
    let body_size := p4.length - 4 - fs
    match c.decompress (p4.take body_size) (f.uncompressed_size.getD 0) with
    | .error _ => .ioError
    | .ok d =>
      if d.length ≠ f.uncompressed_size.getD 0 then .corruption .sizeMismatch
      else finalizePage opts (d ++ p4.drop body_size) fs f

/-- The bytes `read_at` returns for a page pointer. -/
def pageSliceAt (file : List Nat) (ptr : PagePointer) : List Nat :=
  (file.drop ptr.offset).take ptr.size

/-- The checksum comparison of step 3: stored trailing 4 bytes vs CRC32C
recomputed over everything before them. -/
def checksumMismatchCond (ps : List Nat) : Bool :=
  decide (decode_fixed32_le (ps.drop (ps.length - 4)) ≠ crc32c (ps.take (ps.length - 4)))

/-- Whether the footer of a checksum-stripped page slice fails to parse
(including a declared footer length that does not fit in the page). -/
def footerParseFails (ps : List Nat) : Bool :=
  !(decide (cachedFooterSize ps + 4 ≤ ps.length)) || (parseFooterPB (cachedFooterBytes ps)).isNone

/-- The condition "body size differs from the declared uncompressed size
but no decompressor codec is configured", evaluated on the
checksum-stripped page slice. -/
def bodySizeMismatchNoCodec (codecIsNone : Bool) (p4 : List Nat) : Bool :=
  match parseFooterPB (cachedFooterBytes p4) with
  | none => false
  | some f =>
    decide (p4.length - 4 - cachedFooterSize p4 ≠ f.uncompressed_size.getD 0) && codecIsNone

/-- The condition "decompression succeeds but yields a length different
from the declared uncompressed size", evaluated on the checksum-stripped
page slice. -/
def decompressLenMismatch (codec : Option Codec) (p4 : List Nat) : Bool :=
  match parseFooterPB (cachedFooterBytes p4) with
  | none => false
  | some f =>
    if p4.length - 4 - cachedFooterSize p4 = f.uncompressed_size.getD 0 then false
    else
      match codec with
      | none => false
      | some c =>
        match c.decompress (p4.take (p4.length - 4 - cachedFooterSize p4))
            (f.uncompressed_size.getD 0) with
        | .ok d => decide (d.length ≠ f.uncompressed_size.getD 0)
        | .error _ => false

/-- The cache-miss path of `read_and_decompress_page_` (lines 156-251):
size check, `read_at`, optional checksum verification, footer parse, and
optional decompression. The file is a byte list; `read_at` of a range
outside it is the reader collaborator failing (a non-corruption status). -/
def readPageBytes (opts : PageReadOptions) (ps : List Nat) : PageReadResult :=
  if opts.verify_checksum && checksumMismatchCond ps then
    .corruption .checksumMismatch
  else
    if cachedFooterSize (ps.take (ps.length - 4)) + 4 ≤ (ps.take (ps.length - 4)).length then
      match parseFooterPB (cachedFooterBytes (ps.take (ps.length - 4))) with
      | none => .corruption .badFooter
      | some f =>
        if (ps.take (ps.length - 4)).length - 4 - cachedFooterSize (ps.take (ps.length - 4)) ≠
            f.uncompressed_size.getD 0 then
          decompressPath opts (ps.take (ps.length - 4)) f
        else finalizePage opts (ps.take (ps.length - 4)) (cachedFooterSize (ps.take (ps.length - 4))) f
    else .corruption .badFooter

def readFromFile (opts : PageReadOptions) (file : List Nat) : PageReadResult :=
  if opts.page_pointer.size < 8 then .corruption .tooSmall
  else if opts.page_pointer.offset + opts.page_pointer.size ≤ file.length then
    readPageBytes opts (pageSliceAt file opts.page_pointer)
  else .ioError

/-- Model of `PageIO::read_and_decompress_page_`. `cached` is the result
of the page-cache lookup for this page's key. -/
def read_and_decompress_page_ (opts : PageReadOptions) (cached : Option (List Nat))
    (file : List Nat) : PageReadResult :=
  match cached with
  | some ps => if opts.use_page_cache then readCacheHit ps else readFromFile opts file
  | none => readFromFile opts file

/-! ### Corruption-retry wrapper (PageIO::read_and_decompress_page) -/

inductive RStatus where
  | ok
  | corruption
  | otherErr
deriving DecidableEq, Repr

/-- Model of `file_cache_key_from_path`: the basename after the last
slash (`substr(rfind('/') + 1)`, where `npos + 1 == 0` yields the whole
string), fed to the cache's hash (an abstract collaborator). -/
def basename_after_slash (s : List Char) : List Char :=
  s.foldl (fun acc c => if c = '/' then [] else acc ++ [c]) []

def file_cache_key_from_path (hash : List Char → Nat) (path : List Char) : Nat :=
  hash (basename_after_slash path)

/-- Environment of the retry wrapper. `tiered` is whether the
`dynamic_cast` to `CachedRemoteFileReader` succeeds; `fileCacheFound`
whether `FileCacheFactory::get_by_path` returns an instance;
`doRead remoteDirect cacheHasEntry` is the outcome of one
`do_read_and_decompress_page` attempt under that backing state. -/
structure RetryEnv where
  cloudMode : Bool
  tiered : Bool
  fileCacheFound : Bool
  cacheHasEntry : Bool
  hash : List Char → Nat
  path : List Char
  doRead : Bool → Bool → RStatus

structure RetryResult where
  status : RStatus
  attempts : List Bool
  invalidated : List Nat
deriving DecidableEq, Repr

/-- Model of `PageIO::read_and_decompress_page` (lines 253-301): the
corruption-retry wrapper. `attempts` records, in order, whether each
attempt read directly from the remote reader; `invalidated` the cache
keys passed to `remove_if_cached`. -/
def read_and_decompress_page (env : RetryEnv) : RetryResult :=
  let st1 := env.doRead false env.cacheHasEntry
  if st1 ≠ RStatus.corruption ∨ env.cloudMode = false then
    { status := st1, attempts := [false], invalidated := [] }
  else if env.tiered = false then
    { status := st1, attempts := [false], invalidated := [] }
  else
    let key := file_cache_key_from_path env.hash env.path
    let inval := if env.fileCacheFound then [key] else []
    let hasEntry2 := if env.fileCacheFound then false else env.cacheHasEntry
    let st2 := env.doRead false hasEntry2
    if st2 ≠ RStatus.corruption then
      { status := st2, attempts := [false, false], invalidated := inval }
    else
      { status := env.doRead true hasEntry2,
        attempts := [false, false, true], invalidated := inval }

/-! ### Row-range resolution (SegmentIterator) — spec-modelled

The implementation of `SegmentIterator::_get_row_ranges_by_column_conditions`
and `_downgrade_without_index` lives in `segment_iterator.cpp`, which is
not among the sources here (only the declarations in
`segment_iterator.h` are). The definitions below are modelled from the
spec, sections 4.2 and 8. -/

structure ColumnPredicate where
  colId : Nat
  test : Int → Bool

/-- Outcome of trying to apply one index to one predicate: no usable
index, index application failed (missing or corrupt index), or applied
with a resulting row-ordinal set. -/
inductive IndexOutcome where
  | noIndex
  | failed
  | applied (rows : List Nat)

def rowValue (rows : List (Nat → Int)) (r : Nat) (cid : Nat) : Int :=
  (rows.getD r (fun _ => 0)) cid

def predMatches (rows : List (Nat → Int)) (p : ColumnPredicate) (r : Nat) : Bool :=
  p.test (rowValue rows r p.colId)

/-- Modelled from the spec (4.2, and `_get_row_ranges_by_column_conditions`
and `_downgrade_without_index` in segment_iterator.h, whose .cpp is not in
the sources): starting from the key-range row set, each predicate with an
applied index narrows the working set by intersection and is dropped;
a predicate whose index is absent or whose application failed is kept in
the remaining-predicate list. Returns the resolved row-ordinal set and
the remaining predicates. -/
def get_row_ranges_by_column_conditions (keyRows : List Nat)
    (pio : List (ColumnPredicate × IndexOutcome)) : List Nat × List ColumnPredicate :=
  pio.foldl
    (fun acc po =>
      match po.2 with
      | .applied s => (acc.1.filter (fun r => s.contains r), acc.2)
      | _ => (acc.1, acc.2 ++ [po.1]))
    (keyRows, [])

/-- Modelled from the spec (4.3 step 4): the rows a scan ultimately
produces are the resolved row set filtered by row-level evaluation of
every remaining predicate. -/
def scanResultRows (rows : List (Nat → Int)) (keyRows : List Nat)
    (pio : List (ColumnPredicate × IndexOutcome)) : List Nat :=
  let rr := get_row_ranges_by_column_conditions keyRows pio
  rr.1.filter (fun r => rr.2.all (fun p => predMatches rows p r))

/-- The conjunction of the applied-index narrowings: whether row `r`
survives every applied index set of `pio`. -/
def appliedKeep (pio : List (ColumnPredicate × IndexOutcome)) (r : Nat) : Bool :=
  pio.all (fun po => match po.2 with | .applied s => s.contains r | _ => true)

/-- The predicates of `pio` whose index was absent or failed, in order:
the remaining-predicate list the resolution produces. -/
def remainingOf (pio : List (ColumnPredicate × IndexOutcome)) : List ColumnPredicate :=
  pio.filterMap (fun po => match po.2 with | .applied _ => none | _ => some po.1)

/-! ### Batch production EOF contract — spec-modelled

`SegmentIterator::next_batch` is implemented in `segment_iterator.cpp`
(not among the sources); only its declaration and the documented contract
of `TabletReader::next_block_with_aggregation` (tablet_reader.h lines
213-217) are. Modelled from the spec (4.3 step 7 and section 8). -/

/-- Modelled from the spec: one `next_batch` call over the iterator's
remaining row-ordinal list. Returns the status, the rows delivered in
this batch, the `eof` flag, and the remaining rows afterwards. While
rows remain the call delivers up to the batch limit with `eof = false`
(the final partial batch included); once none remain it returns
`eof = true` with zero rows. -/
def next_batch (nrows_read_limit : Nat) (remaining : List Nat) :
    RStatus × List Nat × Bool × List Nat :=
  if remaining.isEmpty then (.ok, [], true, [])
  else (.ok, remaining.take nrows_read_limit, false, remaining.drop nrows_read_limit)

/-! ### Concrete fixtures for witnesses and counterexamples -/

def cBody1 : List (List Nat) := [[7, 8]]

def cFooter1 : PageFooterPB :=
  { type := some .DATA_PAGE, uncompressed_size := some 2, data_page_footer := some 0 }

def cFooterBadUs : PageFooterPB :=
  { type := some .DATA_PAGE, uncompressed_size := some 1, data_page_footer := some 0 }

def envNoCloud : RetryEnv :=
  { cloudMode := false, tiered := true, fileCacheFound := true, cacheHasEntry := true,
    hash := fun _ => 5, path := ['a', '/', 'b'], doRead := fun _ _ => .corruption }

def envCloud : RetryEnv :=
  { cloudMode := true, tiered := true, fileCacheFound := true, cacheHasEntry := true,
    hash := fun _ => 5, path := ['a', '/', 'b'],
    doRead := fun remote _ => if remote then .ok else .corruption }

def cCodec : Codec :=
  { maxCompressLen := 100, compress := fun l => .ok (l.take 1),
    decompress := fun _ n => .ok (List.replicate n 0) }

def cPred : ColumnPredicate := { colId := 0, test := fun v => decide (v = 1) }

def cRows : List (Nat → Int) := [fun _ => 1, fun _ => 2, fun _ => 1]

def cPio : List (ColumnPredicate × IndexOutcome) := [(cPred, IndexOutcome.failed)]

/-! ### Lemmas: little-endian coding -/

@[simp]
theorem length_encode_fixed32_le (x : Nat) : (encode_fixed32_le x).length = 4 := rfl

@[simp]
theorem length_encode_fixed64_le (x : Nat) : (encode_fixed64_le x).length = 8 := rfl

theorem decode_encode_fixed32_le {x : Nat} (h : x < 2 ^ 32) :
    decode_fixed32_le (encode_fixed32_le x) = x := by
  simp [encode_fixed32_le, decode_fixed32_le]
  omega

theorem decode_encode_fixed64_le {x : Nat} (h : x < 2 ^ 64) :
    decode_fixed64_le (encode_fixed64_le x) = x := by
  simp [encode_fixed64_le, decode_fixed64_le]
  omega

theorem encode_fixed32_le_mem_lt {x y : Nat} (h : y ∈ encode_fixed32_le x) : y < 256 := by
  simp [encode_fixed32_le] at h
  rcases h with h | h | h | h <;> omega

theorem encode_fixed64_le_mem_lt {x y : Nat} (h : y ∈ encode_fixed64_le x) : y < 256 := by
  simp [encode_fixed64_le] at h
  rcases h with h | h | h | h | h | h | h | h <;> omega

/-! ### Lemmas: CRC32C -/

theorem crcRound_lt {s : Nat} (h : s < 2 ^ 32) : crcRound s < 2 ^ 32 := by
  unfold crcRound
  split
  · exact Nat.xor_lt_two_pow (by omega) (by decide)
  · omega

theorem xorPolyHiNe {a b : Nat} (ha : a < 2 ^ 31) (hb : b < 2 ^ 31) :
    a ^^^ crc32cPoly ≠ b := by
  intro h
  have h1 : (a ^^^ crc32cPoly).testBit 31 = true := by
    rw [Nat.testBit_xor, Nat.testBit_lt_two_pow ha]
    decide
  rw [h, Nat.testBit_lt_two_pow hb] at h1
  exact Bool.noConfusion h1

theorem crcRound_inj {s t : Nat} (hs : s < 2 ^ 32) (ht : t < 2 ^ 32)
    (h : crcRound s = crcRound t) : s = t := by
  unfold crcRound at h
  rcases Nat.mod_two_eq_zero_or_one s with hs2 | hs2 <;>
    rcases Nat.mod_two_eq_zero_or_one t with ht2 | ht2
  · simp [hs2, ht2] at h
    omega
  · simp [hs2, ht2] at h
    exact absurd h.symm (xorPolyHiNe (by omega) (by omega))
  · simp [hs2, ht2] at h
    exact absurd h (xorPolyHiNe (by omega) (by omega))
  · simp [hs2, ht2] at h
    have h' : s / 2 = t / 2 := by
      have h2 := congrArg (fun x => x ^^^ crc32cPoly) h
      simpa [Nat.xor_assoc] using h2
    omega

theorem crcShift8_lt {s : Nat} (h : s < 2 ^ 32) : crcShift8 s < 2 ^ 32 :=
  crcRound_lt (crcRound_lt (crcRound_lt (crcRound_lt (crcRound_lt (crcRound_lt
    (crcRound_lt (crcRound_lt h)))))))

theorem crcShift8_inj {s t : Nat} (hs : s < 2 ^ 32) (ht : t < 2 ^ 32)
    (h : crcShift8 s = crcShift8 t) : s = t := by
  have b1 := crcRound_lt hs
  have b2 := crcRound_lt b1
  have b3 := crcRound_lt b2
  have b4 := crcRound_lt b3
  have b5 := crcRound_lt b4
  have b6 := crcRound_lt b5
  have b7 := crcRound_lt b6
  have c1 := crcRound_lt ht
  have c2 := crcRound_lt c1
  have c3 := crcRound_lt c2
  have c4 := crcRound_lt c3
  have c5 := crcRound_lt c4
  have c6 := crcRound_lt c5
  have c7 := crcRound_lt c6
  unfold crcShift8 at h
  exact crcRound_inj hs ht
    (crcRound_inj b1 c1
      (crcRound_inj b2 c2
        (crcRound_inj b3 c3
          (crcRound_inj b4 c4
            (crcRound_inj b5 c5
              (crcRound_inj b6 c6
                (crcRound_inj b7 c7 h)))))))

theorem crcByteStep_lt {s b : Nat} (hs : s < 2 ^ 32) (hb : b < 2 ^ 32) :
    crcByteStep s b < 2 ^ 32 :=
  crcShift8_lt (Nat.xor_lt_two_pow hs hb)

theorem crcByteStep_inj_state {s t b : Nat} (hs : s < 2 ^ 32) (ht : t < 2 ^ 32)
    (hb : b < 2 ^ 32) (h : crcByteStep s b = crcByteStep t b) : s = t := by
  have h1 := crcShift8_inj (Nat.xor_lt_two_pow hs hb) (Nat.xor_lt_two_pow ht hb) h
  have h2 := congrArg (fun x => x ^^^ b) h1
  simpa [Nat.xor_assoc] using h2

theorem crcByteStep_inj_byte {s b c : Nat} (hs : s < 2 ^ 32) (hb : b < 2 ^ 32)
    (hc : c < 2 ^ 32) (h : crcByteStep s b = crcByteStep s c) : b = c := by
  have h1 := crcShift8_inj (Nat.xor_lt_two_pow hs hb) (Nat.xor_lt_two_pow hs hc) h
  have h2 := congrArg (fun x => s ^^^ x) h1
  simpa [← Nat.xor_assoc] using h2

theorem crc32cAux_lt {l : List Nat} : ∀ {s : Nat}, s < 2 ^ 32 → (∀ x ∈ l, x < 2 ^ 32) →
    crc32cAux s l < 2 ^ 32 := by
  induction l with
  | nil => intro s hs _; simpa [crc32cAux] using hs
  | cons a l ih =>
    intro s hs hl
    have ha : a < 2 ^ 32 := hl a (by simp)
    have hstep : crc32cAux s (a :: l) = crc32cAux (crcByteStep s a) l := rfl
    rw [hstep]
    exact ih (crcByteStep_lt hs ha) (fun x hx => hl x (by simp [hx]))

theorem crc32cAux_ne {l : List Nat} : ∀ {s t : Nat}, s < 2 ^ 32 → t < 2 ^ 32 →
    (∀ x ∈ l, x < 2 ^ 32) → s ≠ t → crc32cAux s l ≠ crc32cAux t l := by
  induction l with
  | nil => intro s t _ _ _ hne; simpa [crc32cAux] using hne
  | cons a l ih =>
    intro s t hs ht hl hne
    have ha : a < 2 ^ 32 := hl a (by simp)
    have hstep : ∀ u, crc32cAux u (a :: l) = crc32cAux (crcByteStep u a) l := fun _ => rfl
    rw [hstep, hstep]
    exact ih (crcByteStep_lt hs ha) (crcByteStep_lt ht ha)
      (fun x hx => hl x (by simp [hx]))
      (fun he => hne (crcByteStep_inj_state hs ht ha he))

theorem crc32c_lt {l : List Nat} (hl : ∀ x ∈ l, x < 2 ^ 32) : crc32c l < 2 ^ 32 := by
  unfold crc32c
  exact Nat.xor_lt_two_pow (crc32cAux_lt (by decide) hl) (by decide)

/-- CRC32C detects every single-byte substitution: two byte lists that
agree except at one position have different checksums. -/
theorem crc32c_flip_ne {u w : List Nat} {b c : Nat}
    (hu : ∀ x ∈ u, x < 2 ^ 32) (hw : ∀ x ∈ w, x < 2 ^ 32)
    (hb : b < 2 ^ 32) (hc : c < 2 ^ 32) (hne : b ≠ c) :
    crc32c (u ++ b :: w) ≠ crc32c (u ++ c :: w) := by
  intro h
  unfold crc32c crc32cAux at h
  rw [List.foldl_append, List.foldl_append] at h
  have h1 : List.foldl crcByteStep (List.foldl crcByteStep 0xFFFFFFFF u) (b :: w) =
      List.foldl crcByteStep (List.foldl crcByteStep 0xFFFFFFFF u) (c :: w) := by
    have h2 := congrArg (fun x => x ^^^ 0xFFFFFFFF) h
    simpa [Nat.xor_assoc] using h2
  have hs0 : List.foldl crcByteStep 0xFFFFFFFF u < 2 ^ 32 := crc32cAux_lt (by decide) hu
  have hne2 : crcByteStep (List.foldl crcByteStep 0xFFFFFFFF u) b ≠
      crcByteStep (List.foldl crcByteStep 0xFFFFFFFF u) c :=
    fun he => hne (crcByteStep_inj_byte hs0 hb hc he)
  exact crc32cAux_ne (crcByteStep_lt hs0 hb) (crcByteStep_lt hs0 hc) hw hne2 h1

/-! ### Lemmas: footer serialization -/

@[simp]
theorem length_serializeFooterPB (f : PageFooterPB) : (serializeFooterPB f).length = 23 := by
  simp [serializeFooterPB]

theorem boolBit_lt (b : Bool) : boolBit b < 256 := by
  cases b <;> decide

theorem pageTypeCode_lt (t : PageTypePB) : pageTypeCode t < 256 := by
  cases t <;> decide

theorem codePageType_pageTypeCode (t : PageTypePB) : codePageType (pageTypeCode t) = some t := by
  cases t <;> rfl

theorem serializeFooterPB_mem_lt (f : PageFooterPB) : ∀ y ∈ serializeFooterPB f, y < 256 := by
  intro y hy
  rcases f with ⟨t, us, dp, ib, db, sb⟩
  simp [serializeFooterPB] at hy
  rcases hy with hy | hy | hy | hy | hy | hy | hy | hy | hy
  · exact hy ▸ boolBit_lt _
  · cases t with
    | none => simp at hy; omega
    | some tv => simp at hy; exact hy ▸ pageTypeCode_lt tv
  · exact hy ▸ boolBit_lt _
  · exact encode_fixed64_le_mem_lt hy
  · exact hy ▸ boolBit_lt _
  · exact encode_fixed64_le_mem_lt hy
  · exact hy ▸ boolBit_lt _
  · exact hy ▸ boolBit_lt _
  · exact hy ▸ boolBit_lt _

@[simp]
theorem boolBit_false : boolBit false = 0 := rfl

@[simp]
theorem boolBit_true : boolBit true = 1 := rfl

@[simp]
theorem boolBit_le_one (b : Bool) : boolBit b ≤ 1 := by
  cases b <;> decide

@[simp]
theorem decide_boolBit_eq_one (b : Bool) : decide (boolBit b = 1) = b := by
  cases b <;> rfl

set_option maxHeartbeats 16000000 in
theorem parseFooterPB_serializeFooterPB {f : PageFooterPB} (h : wfFooter f = true) :
    parseFooterPB (serializeFooterPB f) = some f := by
  rcases f with ⟨t, us, dp, ib, db, sb⟩
  simp [wfFooter] at h
  obtain ⟨h1, h2⟩ := h
  rcases t with _ | tv
  · cases us <;> cases dp <;>
      (try simp only [Option.getD_some, Option.getD_none] at h1 h2) <;>
      (simp [serializeFooterPB, parseFooterPB, encode_fixed64_le,
        decode_fixed64_le]) <;> omega
  · cases tv <;> cases us <;> cases dp <;>
      (try simp only [Option.getD_some, Option.getD_none] at h1 h2) <;>
      (simp [serializeFooterPB, parseFooterPB, pageTypeCode, codePageType,
        encode_fixed64_le, decode_fixed64_le]) <;> omega

/-! ### Lemmas: page layout -/

theorem length_flatten_body (body : List (List Nat)) :
    body.flatten.length = compute_total_size body := by
  simp [compute_total_size, List.length_flatten]

@[simp]
theorem length_pageChecksumInput (body : List (List Nat)) (footer : PageFooterPB) :
    (pageChecksumInput body footer).length = compute_total_size body + 27 := by
  simp [pageChecksumInput, compute_total_size]

@[simp]
theorem length_pageBytes (body : List (List Nat)) (footer : PageFooterPB) :
    (pageBytes body footer).length = compute_total_size body + 31 := by
  simp [pageBytes]

theorem pageChecksumInput_mem_lt {body : List (List Nat)} {footer : PageFooterPB}
    (hb : ∀ x ∈ body.flatten, x < 256) :
    ∀ x ∈ pageChecksumInput body footer, x < 256 := by
  intro x hx
  simp only [pageChecksumInput, List.mem_append] at hx
  rcases hx with (hx | hx) | hx
  · exact hb x hx
  · exact serializeFooterPB_mem_lt footer x hx
  · exact encode_fixed32_le_mem_lt hx

theorem pageBytes_mem_lt {body : List (List Nat)} {footer : PageFooterPB}
    (hb : ∀ x ∈ body.flatten, x < 256) :
    ∀ x ∈ pageBytes body footer, x < 256 := by
  intro x hx
  simp only [pageBytes, List.mem_append] at hx
  rcases hx with hx | hx
  · exact pageChecksumInput_mem_lt hb x hx
  · exact encode_fixed32_le_mem_lt hx

theorem crc_pageChecksumInput_lt {body : List (List Nat)} {footer : PageFooterPB}
    (hb : ∀ x ∈ body.flatten, x < 256) :
    crc32c (pageChecksumInput body footer) < 2 ^ 32 := by
  refine crc32c_lt (fun x hx => ?_)
  have := pageChecksumInput_mem_lt hb x hx
  omega

theorem pageSliceAt_append (file p : List Nat) :
    pageSliceAt (file ++ p) { offset := file.length, size := p.length } = p := by
  simp [pageSliceAt, List.drop_left, List.take_length]

theorem pageChecksumInput_assoc (body : List (List Nat)) (footer : PageFooterPB) :
    pageChecksumInput body footer =
      (body.flatten ++ serializeFooterPB footer) ++ encode_fixed32_le 23 := by
  simp [pageChecksumInput, List.append_assoc]

theorem pageChecksumInput_take (body : List (List Nat)) (footer : PageFooterPB) :
    (pageChecksumInput body footer).take ((pageChecksumInput body footer).length - 4) =
      body.flatten ++ serializeFooterPB footer := by
  rw [pageChecksumInput_assoc]
  refine List.take_left' ?_
  simp [length_flatten_body, compute_total_size]

theorem pageChecksumInput_drop (body : List (List Nat)) (footer : PageFooterPB) :
    (pageChecksumInput body footer).drop ((pageChecksumInput body footer).length - 4) =
      encode_fixed32_le 23 := by
  rw [pageChecksumInput_assoc]
  refine List.drop_left' ?_
  simp [length_flatten_body, compute_total_size]

theorem cachedFooterSize_pageChecksumInput (body : List (List Nat)) (footer : PageFooterPB) :
    cachedFooterSize (pageChecksumInput body footer) = 23 := by
  rw [cachedFooterSize, pageChecksumInput_drop]
  exact decode_encode_fixed32_le (by norm_num)

theorem cachedFooterBytes_pageChecksumInput (body : List (List Nat)) (footer : PageFooterPB) :
    cachedFooterBytes (pageChecksumInput body footer) = serializeFooterPB footer := by
  rw [cachedFooterBytes, cachedFooterSize_pageChecksumInput, pageChecksumInput_take]
  have h : (pageChecksumInput body footer).length - 4 - 23 = body.flatten.length := by
    simp [compute_total_size]
  rw [h, List.drop_left]

theorem cachedBodyTake_pageChecksumInput (body : List (List Nat)) (footer : PageFooterPB) :
    (pageChecksumInput body footer).take
      ((pageChecksumInput body footer).length - 4 - 23) = body.flatten := by
  have h : (pageChecksumInput body footer).length - 4 - 23 = body.flatten.length := by
    simp [compute_total_size]
  rw [h, pageChecksumInput_assoc, List.append_assoc, List.take_left]

theorem pageBytes_take (body : List (List Nat)) (footer : PageFooterPB) :
    (pageBytes body footer).take ((pageBytes body footer).length - 4) =
      pageChecksumInput body footer := by
  rw [pageBytes]
  refine List.take_left' ?_
  simp

theorem pageBytes_drop (body : List (List Nat)) (footer : PageFooterPB) :
    (pageBytes body footer).drop ((pageBytes body footer).length - 4) =
      encode_fixed32_le (crc32c (pageChecksumInput body footer)) := by
  rw [pageBytes]
  refine List.drop_left' ?_
  simp

theorem checksumMismatchCond_pageBytes {body : List (List Nat)} {footer : PageFooterPB}
    (hb : ∀ x ∈ body.flatten, x < 256) :
    checksumMismatchCond (pageBytes body footer) = false := by
  rw [checksumMismatchCond, pageBytes_take, pageBytes_drop,
    decode_encode_fixed32_le (crc_pageChecksumInput_lt hb)]
  simp

/-- What the cache-miss read does with the image of a page written by
`write_page`, once the checksum comparison (which always passes) and the
footer parse (which always succeeds) are discharged: the decompression
branch when the stored body size differs from the declared uncompressed
size, the shared finalize step otherwise. -/
theorem readPageBytes_write_page_eq (opts : PageReadOptions)
    (body : List (List Nat)) (footer : PageFooterPB)
    (hwf : wfFooter footer = true) (hb : ∀ x ∈ body.flatten, x < 256) :
    readPageBytes opts (pageBytes body footer) =
    (if compute_total_size body ≠ footer.uncompressed_size.getD 0 then
       decompressPath opts (pageChecksumInput body footer) footer
     else finalizePage opts (pageChecksumInput body footer) 23 footer) := by
  have e7 : (pageChecksumInput body footer).length - 4 - 23 = compute_total_size body := by
    rw [length_pageChecksumInput]; omega
  rw [readPageBytes]
  rw [checksumMismatchCond_pageBytes hb, Bool.and_false]
  rw [if_neg (by simp)]
  rw [pageBytes_take]
  rw [cachedFooterSize_pageChecksumInput]
  rw [if_pos (by rw [length_pageChecksumInput]; omega)]
  rw [cachedFooterBytes_pageChecksumInput, parseFooterPB_serializeFooterPB hwf]
  rw [e7]

theorem readFromFile_write_page_eq (opts : PageReadOptions) (file : List Nat)
    (body : List (List Nat)) (footer : PageFooterPB)
    (hwf : wfFooter footer = true) (hb : ∀ x ∈ body.flatten, x < 256)
    (hoff : opts.page_pointer.offset = file.length)
    (hsize : opts.page_pointer.size = (pageBytes body footer).length) :
    readFromFile opts (file ++ pageBytes body footer) =
    (if compute_total_size body ≠ footer.uncompressed_size.getD 0 then
       decompressPath opts (pageChecksumInput body footer) footer
     else finalizePage opts (pageChecksumInput body footer) 23 footer) := by
  have e1 : pageSliceAt (file ++ pageBytes body footer) opts.page_pointer =
      pageBytes body footer := by
    rw [pageSliceAt, hoff, hsize, List.drop_left, List.take_length]
  rw [readFromFile]
  rw [if_neg (by rw [hsize, length_pageBytes]; omega)]
  rw [if_pos (le_of_eq (by rw [hoff, hsize, List.length_append]))]
  rw [e1]
  exact readPageBytes_write_page_eq opts body footer hwf hb

/-- The finalize step with no pre-decoder yields the body as written. -/
theorem finalizePage_write_page (body : List (List Nat)) (footer : PageFooterPB)
    (opts : PageReadOptions) (hpd : opts.preDecoder = none) :
    finalizePage opts (pageChecksumInput body footer) 23 footer = .ok body.flatten footer := by
  rw [finalizePage, hpd]
  have h := cachedBodyTake_pageChecksumInput body footer
  split
  · rw [h]
  · rw [h]

/-- Core roundtrip: reading a page written by `write_page` whose declared
uncompressed size equals the body size returns the body bytes and the
footer unchanged, for any codec and either checksum-verification
setting. -/
theorem readFromFile_write_page_roundtrip (opts : PageReadOptions) (file : List Nat)
    (body : List (List Nat)) (footer : PageFooterPB)
    (hwf : wfFooter footer = true) (hb : ∀ x ∈ body.flatten, x < 256)
    (hus : footer.uncompressed_size.getD 0 = compute_total_size body)
    (hoff : opts.page_pointer.offset = file.length)
    (hsize : opts.page_pointer.size = (pageBytes body footer).length)
    (hpd : opts.preDecoder = none) :
    readFromFile opts (file ++ pageBytes body footer) = .ok body.flatten footer := by
  rw [readFromFile_write_page_eq opts file body footer hwf hb hoff hsize]
  rw [if_neg (by omega)]
  exact finalizePage_write_page body footer opts hpd

/-- A single byte substitution inside the stored checksum field changes
the decoded expected checksum. -/
theorem decode32_flip_ne {u2 w2 : List Nat} {b c x : Nat}
    (hx : x < 2 ^ 32) (heq : u2 ++ b :: w2 = encode_fixed32_le x)
    (hc : c < 256) (hne : c ≠ b) :
    decode_fixed32_le (u2 ++ c :: w2) ≠ x := by
  rcases u2 with _ | ⟨a0, _ | ⟨a1, _ | ⟨a2, _ | ⟨a3, u3⟩⟩⟩⟩
  · simp [encode_fixed32_le] at heq
    obtain ⟨hb, hw⟩ := heq
    subst hw
    simp [decode_fixed32_le]
    omega
  · simp [encode_fixed32_le] at heq
    obtain ⟨h0, hb, hw⟩ := heq
    subst h0 hw
    simp [decode_fixed32_le]
    omega
  · simp [encode_fixed32_le] at heq
    obtain ⟨h0, h1, hb, hw⟩ := heq
    subst h0 h1 hw
    simp [decode_fixed32_le]
    omega
  · simp [encode_fixed32_le] at heq
    obtain ⟨h0, h1, h2, hb, hw⟩ := heq
    subst h0 h1 h2 hw
    simp [decode_fixed32_le]
    omega
  · exfalso
    have hl := congrArg List.length heq
    simp [encode_fixed32_le] at hl

theorem checksumMismatchCond_flip {body : List (List Nat)} {footer : PageFooterPB}
    {u w : List Nat} {b c : Nat}
    (hb : ∀ x ∈ body.flatten, x < 256)
    (hsplit : pageBytes body footer = u ++ b :: w)
    (hc : c < 256) (hne : c ≠ b) :
    checksumMismatchCond (u ++ c :: w) = true := by
  have hPlen : (pageBytes body footer).length = compute_total_size body + 31 :=
    length_pageBytes body footer
  have hulen : u.length + (w.length + 1) = (pageBytes body footer).length := by
    rw [hsplit]; simp
  have hlen : (u ++ c :: w).length = (pageBytes body footer).length := by
    simp at hulen ⊢; omega
  have hPbytes : ∀ x ∈ pageBytes body footer, x < 256 := pageBytes_mem_lt hb
  have hub : ∀ x ∈ u, x < 2 ^ 32 := by
    intro x hx
    have hm : x ∈ pageBytes body footer := by
      rw [hsplit]; exact List.mem_append_left _ hx
    have := hPbytes x hm; omega
  have hwb : ∀ x ∈ w, x < 2 ^ 32 := by
    intro x hx
    have hm : x ∈ pageBytes body footer := by
      rw [hsplit]; simp [hx]
    have := hPbytes x hm; omega
  have hbb : b < 2 ^ 32 := by
    have hm : b ∈ pageBytes body footer := by rw [hsplit]; simp
    have := hPbytes b hm; omega
  have hcb : c < 2 ^ 32 := by omega
  have hClt : crc32c (pageChecksumInput body footer) < 2 ^ 32 := crc_pageChecksumInput_lt hb
  have htake : (pageBytes body footer).take ((pageBytes body footer).length - 4) =
    pageChecksumInput body footer := pageBytes_take body footer
  have hdrop : (pageBytes body footer).drop ((pageBytes body footer).length - 4) =
    encode_fixed32_le (crc32c (pageChecksumInput body footer)) := pageBytes_drop body footer
  rw [checksumMismatchCond, hlen]
  simp only [decide_eq_true_eq]
  by_cases hcase : u.length < (pageBytes body footer).length - 4
  · -- substitution inside the checksummed prefix: the recomputed CRC changes
    have hk : (pageBytes body footer).length - 4 - u.length =
        ((pageBytes body footer).length - 4 - u.length - 1) + 1 := by omega
    have htakeC : (u ++ c :: w).take ((pageBytes body footer).length - 4) =
        u ++ c :: w.take ((pageBytes body footer).length - 4 - u.length - 1) := by
      rw [List.take_append_eq_append_take, List.take_of_length_le (by omega), hk,
        List.take_succ_cons]
      simp
    have htakeB : (u ++ b :: w).take ((pageBytes body footer).length - 4) =
        u ++ b :: w.take ((pageBytes body footer).length - 4 - u.length - 1) := by
      rw [List.take_append_eq_append_take, List.take_of_length_le (by omega), hk,
        List.take_succ_cons]
      simp
    have hdropC : (u ++ c :: w).drop ((pageBytes body footer).length - 4) =
        w.drop ((pageBytes body footer).length - 4 - u.length - 1) := by
      rw [List.drop_append_eq_append_drop, List.drop_eq_nil_of_le (by omega), hk,
        List.drop_succ_cons]
      simp
    have hdropB : (u ++ b :: w).drop ((pageBytes body footer).length - 4) =
        w.drop ((pageBytes body footer).length - 4 - u.length - 1) := by
      rw [List.drop_append_eq_append_drop, List.drop_eq_nil_of_le (by omega), hk,
        List.drop_succ_cons]
      simp
    have hwdrop : w.drop ((pageBytes body footer).length - 4 - u.length - 1) =
        encode_fixed32_le (crc32c (pageChecksumInput body footer)) := by
      rw [← hdropB, ← hsplit, hdrop]
    have hQeq : u ++ b :: w.take ((pageBytes body footer).length - 4 - u.length - 1) =
        pageChecksumInput body footer := by
      rw [← htakeB, ← hsplit, htake]
    have ha : crc32c ((u ++ c :: w).take ((pageBytes body footer).length - 4)) ≠
        crc32c (pageChecksumInput body footer) := by
      rw [htakeC, ← hQeq]
      exact crc32c_flip_ne hub
        (fun x hx => hwb x (List.mem_of_mem_take hx)) hcb hbb hne
    have he : decode_fixed32_le ((u ++ c :: w).drop ((pageBytes body footer).length - 4)) =
        crc32c (pageChecksumInput body footer) := by
      rw [hdropC, hwdrop, decode_encode_fixed32_le hClt]
    rw [he]
    exact fun hcon => ha hcon.symm
  · -- substitution inside the stored checksum field: the decoded value changes
    have hle : (pageBytes body footer).length - 4 ≤ u.length := by omega
    have hz : (pageBytes body footer).length - 4 - u.length = 0 :=
      Nat.sub_eq_zero_of_le hle
    have htakeC : (u ++ c :: w).take ((pageBytes body footer).length - 4) =
        u.take ((pageBytes body footer).length - 4) := by
      rw [List.take_append_eq_append_take, hz]
      simp
    have htakeB : (u ++ b :: w).take ((pageBytes body footer).length - 4) =
        u.take ((pageBytes body footer).length - 4) := by
      rw [List.take_append_eq_append_take, hz]
      simp
    have hdropC : (u ++ c :: w).drop ((pageBytes body footer).length - 4) =
        u.drop ((pageBytes body footer).length - 4) ++ c :: w := by
      rw [List.drop_append_eq_append_drop, hz]
      simp
    have hdropB : (u ++ b :: w).drop ((pageBytes body footer).length - 4) =
        u.drop ((pageBytes body footer).length - 4) ++ b :: w := by
      rw [List.drop_append_eq_append_drop, hz]
      simp
    have hQeq : u.take ((pageBytes body footer).length - 4) =
        pageChecksumInput body footer := by
      rw [← htakeB, ← hsplit, htake]
    have hCeq : u.drop ((pageBytes body footer).length - 4) ++ b :: w =
        encode_fixed32_le (crc32c (pageChecksumInput body footer)) := by
      rw [← hdropB, ← hsplit, hdrop]
    rw [hdropC, htakeC, hQeq]
    exact decode32_flip_ne hClt hCeq hc hne

/-- Reading a written page after any single-byte substitution fails the
checksum comparison when verification is enabled. -/
theorem readFromFile_flip_corruption (opts : PageReadOptions) (file : List Nat)
    (body : List (List Nat)) (footer : PageFooterPB) (u w : List Nat) (b c : Nat)
    (hb : ∀ x ∈ body.flatten, x < 256)
    (hsplit : pageBytes body footer = u ++ b :: w)
    (hc : c < 256) (hne : c ≠ b)
    (hv : opts.verify_checksum = true)
    (hoff : opts.page_pointer.offset = file.length)
    (hsize : opts.page_pointer.size = (pageBytes body footer).length) :
    readFromFile opts (file ++ (u ++ c :: w)) = .corruption .checksumMismatch := by
  have hlen : (u ++ c :: w).length = (pageBytes body footer).length := by
    have := congrArg List.length hsplit
    simp at this ⊢
    omega
  have e1 : pageSliceAt (file ++ (u ++ c :: w)) opts.page_pointer = u ++ c :: w := by
    rw [pageSliceAt, hoff, hsize, List.drop_left, ← hlen, List.take_length]
  rw [readFromFile]
  rw [if_neg (by rw [hsize, length_pageBytes]; omega)]
  rw [if_pos (le_of_eq (by rw [hoff, hsize, List.length_append, hlen]))]
  rw [e1, readPageBytes, hv, checksumMismatchCond_flip hb hsplit hc hne]
  simp

theorem finalizePage_ne_checksum (opts : PageReadOptions) (s : List Nat) (fs : Nat)
    (f : PageFooterPB) : finalizePage opts s fs f ≠ .corruption .checksumMismatch := by
  rw [finalizePage]
  split
  · split
    · split <;> simp
    · simp
  · simp

theorem decompressPath_ne_checksum (opts : PageReadOptions) (p4 : List Nat)
    (f : PageFooterPB) : decompressPath opts p4 f ≠ .corruption .checksumMismatch := by
  simp only [decompressPath]
  split
  · simp
  · split
    · simp
    · split
      · simp
      · exact finalizePage_ne_checksum _ _ _ _

theorem readCacheHit_ne_checksum (ps : List Nat) :
    readCacheHit ps ≠ .corruption .checksumMismatch := by
  rw [readCacheHit]
  split
  · split <;> simp
  · simp

/-- With checksum verification disabled no read outcome is a
checksum-mismatch corruption. -/
theorem read_disabled_no_checksum_failure (opts : PageReadOptions)
    (hv : opts.verify_checksum = false) (cached : Option (List Nat)) (file : List Nat) :
    read_and_decompress_page_ opts cached file ≠ .corruption .checksumMismatch := by
  have hmiss : readFromFile opts file ≠ .corruption .checksumMismatch := by
    rw [readFromFile]
    split
    · simp
    · split
      · rw [readPageBytes, hv]
        simp only [Bool.false_and, Bool.false_eq_true, if_false]
        split
        · split
          · simp
          · split
            · exact decompressPath_ne_checksum _ _ _
            · exact finalizePage_ne_checksum _ _ _ _
        · simp
      · simp
  cases cached with
  | none => exact hmiss
  | some ps =>
    simp only [read_and_decompress_page_]
    split
    · exact readCacheHit_ne_checksum _
    · exact hmiss

theorem finalizePage_ne_corruption (opts : PageReadOptions) (s : List Nat) (fs : Nat)
    (f : PageFooterPB) (r : CorruptionReason) : finalizePage opts s fs f ≠ .corruption r := by
  rw [finalizePage]
  split
  · split
    · split <;> simp
    · simp
  · simp

set_option maxHeartbeats 1000000 in
theorem readFromFile_corruption_iff (opts : PageReadOptions) (file : List Nat)
    (hread : opts.page_pointer.offset + opts.page_pointer.size ≤ file.length) :
    (∃ r, readFromFile opts file = .corruption r) ↔
      (opts.page_pointer.size < 8 ∨
       (opts.verify_checksum = true ∧
         checksumMismatchCond (pageSliceAt file opts.page_pointer) = true) ∨
       footerParseFails
         ((pageSliceAt file opts.page_pointer).take
           ((pageSliceAt file opts.page_pointer).length - 4)) = true ∨
       bodySizeMismatchNoCodec opts.codec.isNone
         ((pageSliceAt file opts.page_pointer).take
           ((pageSliceAt file opts.page_pointer).length - 4)) = true ∨
       decompressLenMismatch opts.codec
         ((pageSliceAt file opts.page_pointer).take
           ((pageSliceAt file opts.page_pointer).length - 4)) = true) := by
  rw [readFromFile]
  set ps := pageSliceAt file opts.page_pointer with hps
  set p4 := ps.take (ps.length - 4) with hp4
  by_cases h8 : opts.page_pointer.size < 8
  · simp [h8]
  · rw [if_neg h8, if_pos hread, readPageBytes, ← hp4]
    by_cases hv : (opts.verify_checksum && checksumMismatchCond ps) = true
    · rw [if_pos hv]
      rw [Bool.and_eq_true] at hv
      simp [h8, hv]
    · rw [if_neg hv]
      rw [Bool.and_eq_true] at hv
      by_cases hg : cachedFooterSize p4 + 4 ≤ p4.length
      · rw [if_pos hg]
        cases hparse : parseFooterPB (cachedFooterBytes p4) with
        | none =>
          simp [h8, hv, hparse, footerParseFails, bodySizeMismatchNoCodec,
            decompressLenMismatch]
        | some f =>
          by_cases hbs : p4.length - 4 - cachedFooterSize p4 ≠ f.uncompressed_size.getD 0
          · cases hcodec : opts.codec with
            | none =>
              simp [decompressPath, hcodec, h8, hv, footerParseFails, hg, hparse,
                bodySizeMismatchNoCodec, hbs, decompressLenMismatch]
            | some c =>
              cases hdec : c.decompress (p4.take (p4.length - 4 - cachedFooterSize p4))
                  (f.uncompressed_size.getD 0) with
              | error e =>
                simp [decompressPath, hcodec, hdec, h8, hv, footerParseFails, hg, hparse,
                  bodySizeMismatchNoCodec, hbs, decompressLenMismatch]
              | ok d =>
                by_cases hlen : d.length ≠ f.uncompressed_size.getD 0
                · simp [decompressPath, hcodec, hdec, hlen, h8, hv, footerParseFails, hg,
                    hparse, bodySizeMismatchNoCodec, hbs, decompressLenMismatch]
                · simp only [not_not] at hlen
                  simp [decompressPath, hcodec, hdec, hlen, h8, hv, footerParseFails, hg,
                    hparse, bodySizeMismatchNoCodec, hbs, decompressLenMismatch,
                    finalizePage_ne_corruption]
          · simp only [not_not] at hbs
            simp [h8, hv, footerParseFails, hg, hparse, bodySizeMismatchNoCodec, hbs,
              decompressLenMismatch, finalizePage_ne_corruption]
      · rw [if_neg hg]
        simp [h8, hv, footerParseFails, hg, bodySizeMismatchNoCodec,
          decompressLenMismatch]

/-! ### Lemmas: compression threshold -/

theorem spaceSavingOk_spec {c u : Nat} {m : Rat} (h : spaceSavingOk c u m = true) :
    c < u ∧ 0 < 1 - (c : Rat) / (u : Rat) ∧ m ≤ 1 - (c : Rat) / (u : Rat) := by
  rw [spaceSavingOk, Bool.and_eq_true, decide_eq_true_eq, decide_eq_true_eq] at h
  obtain ⟨h1, h2⟩ := h
  have hu' : (0 : Rat) < (u : Rat) := by
    have : 0 < u := by omega
    exact_mod_cast this
  refine ⟨h1, ?_, ?_⟩
  · have hc : (c : Rat) < (u : Rat) := by exact_mod_cast h1
    have := (div_lt_one hu').mpr hc
    linarith
  · have hm : m = (m.num : Rat) / (m.den : Rat) := (Rat.num_div_den m).symm
    have hden : (0 : Rat) < (m.den : Rat) := by exact_mod_cast m.pos
    have hsub : (1 : Rat) - (c : Rat) / (u : Rat) = ((u : Rat) - (c : Rat)) / (u : Rat) := by
      field_simp
    have h2' : (m.num : Rat) * (u : Rat) ≤ ((u : Rat) - (c : Rat)) * (m.den : Rat) := by
      exact_mod_cast h2
    rw [hm, hsub, div_le_div_iff₀ hden hu']
    linarith
  
theorem compress_page_body_none (m : Rat) (body : List (List Nat)) :
    compress_page_body none m body = .ok [] := rfl

theorem compress_page_body_exceed (c : Codec) (m : Rat) (body : List (List Nat))
    (h : c.maxCompressLen < compute_total_size body) :
    compress_page_body (some c) m body = .ok [] := by
  simp only [compress_page_body]
  rw [if_neg (by omega)]

theorem compress_page_body_shrinks (c : Codec) (m : Rat) (body : List (List Nat))
    (cb : List Nat) (h : compress_page_body (some c) m body = .ok cb) :
    cb = [] ∨ (cb.length < compute_total_size body ∧
      spaceSavingOk cb.length (compute_total_size body) m = true) := by
  simp only [compress_page_body] at h
  split at h
  · split at h
    · exact absurd h (by simp)
    · split at h
      · right
        obtain rfl : _ = cb := Except.ok.inj h
        constructor
        · exact (spaceSavingOk_spec (by assumption)).1
        · assumption
      · left
        exact (Except.ok.inj h).symm
  · left
    exact (Except.ok.inj h).symm

/-! ### Lemmas: compressed-body detection on the read side -/

theorem decompressPath_codec_none (opts : PageReadOptions) (hco : opts.codec = none)
    (p4 : List Nat) (f : PageFooterPB) :
    decompressPath opts p4 f = .corruption .noCodec := by
  simp [decompressPath, hco]

theorem finalizePage_codec_independent (o1 o2 : PageReadOptions)
    (hpd : o1.pre_decode = o2.pre_decode) (hpdec : o1.preDecoder = o2.preDecoder)
    (s : List Nat) (fs : Nat) (f : PageFooterPB) :
    finalizePage o1 s fs f = finalizePage o2 s fs f := by
  rw [finalizePage, finalizePage, hpd, hpdec]

/-! ### Lemmas: retry wrapper -/

theorem retry_attempts_le_three (env : RetryEnv) :
    (read_and_decompress_page env).attempts.length ≤ 3 := by
  rw [read_and_decompress_page]
  by_cases h1 : env.doRead false env.cacheHasEntry ≠ RStatus.corruption ∨ env.cloudMode = false
  · simp [h1]
  · rw [if_neg h1]
    by_cases h2 : env.tiered = false
    · simp [h2]
    · rw [if_neg h2]
      by_cases h3 : env.fileCacheFound
      · by_cases h4 : env.doRead false false ≠ RStatus.corruption <;> simp [h3, h4]
      · by_cases h4 : env.doRead false env.cacheHasEntry ≠ RStatus.corruption <;>
          simp [h3, h4]

theorem retry_passthrough_non_corruption (env : RetryEnv)
    (h : env.doRead false env.cacheHasEntry ≠ RStatus.corruption) :
    read_and_decompress_page env =
      { status := env.doRead false env.cacheHasEntry, attempts := [false], invalidated := [] } := by
  rw [read_and_decompress_page]
  rw [if_pos (Or.inl h)]

theorem retry_passthrough_not_tiered (env : RetryEnv) (h : env.tiered = false) :
    read_and_decompress_page env =
      { status := env.doRead false env.cacheHasEntry, attempts := [false], invalidated := [] } := by
  rw [read_and_decompress_page]
  by_cases h1 : env.doRead false env.cacheHasEntry ≠ RStatus.corruption ∨ env.cloudMode = false
  · rw [if_pos h1]
  · rw [if_neg h1, if_pos h]

theorem retry_corrupt_cloud_tiered (env : RetryEnv)
    (hcl : env.cloudMode = true) (ht : env.tiered = true) (hfc : env.fileCacheFound = true)
    (h1 : env.doRead false env.cacheHasEntry = RStatus.corruption) :
    (read_and_decompress_page env).invalidated =
      [env.hash (basename_after_slash env.path)] ∧
    ((env.doRead false false ≠ RStatus.corruption →
      read_and_decompress_page env =
        { status := env.doRead false false, attempts := [false, false],
          invalidated := [env.hash (basename_after_slash env.path)] }) ∧
     (env.doRead false false = RStatus.corruption →
      read_and_decompress_page env =
        { status := env.doRead true false, attempts := [false, false, true],
          invalidated := [env.hash (basename_after_slash env.path)] })) := by
  rw [read_and_decompress_page]
  rw [if_neg (by simp [h1, hcl])]
  rw [if_neg (by simp [ht])]
  simp only [hfc, if_true, file_cache_key_from_path]
  constructor
  · split <;> rfl
  · constructor
    · intro h2
      rw [if_pos h2]
    · intro h2
      rw [if_neg (by simp [h2])]

/-! ### Lemmas: row-range resolution (spec-modelled side) -/

theorem rr_foldl_fst (pio : List (ColumnPredicate × IndexOutcome)) :
    ∀ (cur : List Nat) (rem : List ColumnPredicate),
    (pio.foldl
      (fun acc po =>
        match po.2 with
        | .applied s => (acc.1.filter (fun r => s.contains r), acc.2)
        | _ => (acc.1, acc.2 ++ [po.1]))
      (cur, rem)).1 = cur.filter (fun r => appliedKeep pio r) := by
  induction pio with
  | nil =>
    intro cur rem
    simp [appliedKeep]
  | cons po pio ih =>
    intro cur rem
    rcases po with ⟨p, o⟩
    cases o with
    | noIndex =>
      simp only [List.foldl_cons]
      rw [ih]
      refine List.filter_congr (fun x _ => ?_)
      simp [appliedKeep]
    | failed =>
      simp only [List.foldl_cons]
      rw [ih]
      refine List.filter_congr (fun x _ => ?_)
      simp [appliedKeep]
    | applied s =>
      simp only [List.foldl_cons]
      rw [ih, List.filter_filter]
      refine List.filter_congr (fun x _ => ?_)
      simp [appliedKeep, Bool.and_comm]

theorem rr_foldl_snd (pio : List (ColumnPredicate × IndexOutcome)) :
    ∀ (cur : List Nat) (rem : List ColumnPredicate),
    (pio.foldl
      (fun acc po =>
        match po.2 with
        | .applied s => (acc.1.filter (fun r => s.contains r), acc.2)
        | _ => (acc.1, acc.2 ++ [po.1]))
      (cur, rem)).2 = rem ++ remainingOf pio := by
  induction pio with
  | nil =>
    intro cur rem
    simp [remainingOf]
  | cons po pio ih =>
    intro cur rem
    rcases po with ⟨p, o⟩
    cases o with
    | noIndex =>
      simp only [List.foldl_cons]
      rw [ih]
      simp [remainingOf]
    | failed =>
      simp only [List.foldl_cons]
      rw [ih]
      simp [remainingOf]
    | applied s =>
      simp only [List.foldl_cons]
      rw [ih]
      simp [remainingOf]

theorem get_row_ranges_fst (keyRows : List Nat) (pio : List (ColumnPredicate × IndexOutcome)) :
    (get_row_ranges_by_column_conditions keyRows pio).1 =
      keyRows.filter (fun r => appliedKeep pio r) :=
  rr_foldl_fst pio keyRows []

theorem get_row_ranges_snd (keyRows : List Nat) (pio : List (ColumnPredicate × IndexOutcome)) :
    (get_row_ranges_by_column_conditions keyRows pio).2 = remainingOf pio :=
  (rr_foldl_snd pio keyRows []).trans (List.nil_append _)

/-! ### Lemmas: superset and downgrade for row-range resolution -/

theorem resolved_rows_superset (rows : List (Nat → Int)) (keyRows : List Nat)
    (pio : List (ColumnPredicate × IndexOutcome)) (r : Nat)
    (hsound : ∀ p s, (p, IndexOutcome.applied s) ∈ pio →
      ∀ q ∈ keyRows, predMatches rows p q = true → q ∈ s)
    (hr : r ∈ keyRows)
    (hall : ∀ po ∈ pio, predMatches rows po.1 r = true) :
    r ∈ (get_row_ranges_by_column_conditions keyRows pio).1 := by
  rw [get_row_ranges_fst]
  rw [List.mem_filter]
  refine ⟨hr, ?_⟩
  rw [appliedKeep, List.all_eq_true]
  intro po hpo
  rcases po with ⟨p, o⟩
  cases o with
  | noIndex => rfl
  | failed => rfl
  | applied s =>
    exact List.elem_eq_true_of_mem (hsound p s hpo r hr (hall (p, IndexOutcome.applied s) hpo))

theorem scanResultRows_exact (rows : List (Nat → Int)) (keyRows : List Nat)
    (pio : List (ColumnPredicate × IndexOutcome))
    (hexact : ∀ p s, (p, IndexOutcome.applied s) ∈ pio →
      ∀ q ∈ keyRows, (s.contains q) = predMatches rows p q) :
    scanResultRows rows keyRows pio =
      keyRows.filter (fun r => pio.all (fun po => predMatches rows po.1 r)) := by
  rw [scanResultRows]
  rw [get_row_ranges_fst, get_row_ranges_snd, List.filter_filter]
  refine List.filter_congr (fun x hx => ?_)
  induction pio with
  | nil => simp [appliedKeep, remainingOf]
  | cons po pio ih =>
    rcases po with ⟨p, o⟩
    have ih' := ih (fun p s hm q hq => hexact p s (List.mem_cons_of_mem _ hm) q hq)
    cases o with
    | noIndex =>
      simp only [remainingOf, List.filterMap_cons, appliedKeep, List.all_cons] at ih' ⊢
      cases hpx : predMatches rows p x
      · simp [hpx]
      · simpa [hpx] using ih'
    | failed =>
      simp only [remainingOf, List.filterMap_cons, appliedKeep, List.all_cons] at ih' ⊢
      cases hpx : predMatches rows p x
      · simp [hpx]
      · simpa [hpx] using ih'
    | applied s =>
      have hs : s.contains x = predMatches rows p x :=
        hexact p s (List.mem_cons_self _ _) x hx
      simp only [remainingOf, List.filterMap_cons, appliedKeep, List.all_cons] at ih' ⊢
      rw [hs]
      cases hpx : predMatches rows p x
      · simp [hpx]
      · simpa [hpx] using ih'

/-! ### Claim theorems -/

/-- Claim C1 (amended): for every list of body slices and every
well-formed footer of one of the four types whose declared
uncompressed_size equals the total body size, reading the page at the
PagePointer returned by write_page (with checksum verification enabled)
succeeds and returns a body byte-identical to the written body and a
footer equal to the written footer. -/
theorem c1_page_write_read_roundtrip (file : List Nat) (body : List (List Nat))
    (footer : PageFooterPB)
    (hok : footerOk footer = true) (hwf : wfFooter footer = true)
    (hb : ∀ x ∈ body.flatten, x < 256)
    (hus : footer.uncompressed_size = some (compute_total_size body)) :
    write_page file body footer =
      some (file ++ pageBytes body footer,
            { offset := file.length, size := (pageBytes body footer).length }) ∧
    ∀ (pc pd : Bool) (codec : Option Codec),
      read_and_decompress_page_
        { verify_checksum := true, use_page_cache := pc, codec := codec,
          pre_decode := pd, preDecoder := none,
          page_pointer := { offset := file.length, size := (pageBytes body footer).length } }
        none (file ++ pageBytes body footer) = .ok body.flatten footer := by
  constructor
  · rw [write_page, if_pos hok]
  · intro pc pd codec
    exact readFromFile_write_page_roundtrip _ file body footer hwf hb
      (by rw [hus]; rfl) rfl rfl rfl

set_option maxRecDepth 100000 in
theorem c1_roundtrip_witness :
    footerOk cFooter1 = true ∧ wfFooter cFooter1 = true ∧
    (∀ x ∈ cBody1.flatten, x < 256) ∧
    cFooter1.uncompressed_size = some (compute_total_size cBody1) ∧
    read_and_decompress_page_
      { verify_checksum := true, use_page_cache := false, codec := none,
        pre_decode := false, preDecoder := none,
        page_pointer := { offset := 0, size := (pageBytes cBody1 cFooter1).length } }
      none ([] ++ pageBytes cBody1 cFooter1) = .ok cBody1.flatten cFooter1 := by
  refine ⟨by decide, by decide, by decide, by decide, ?_⟩
  have h := (c1_page_write_read_roundtrip [] cBody1 cFooter1 (by decide) (by decide)
    (by decide) (by decide)).2 false false none
  simpa using h

set_option maxRecDepth 100000 in
theorem c1_counterexample :
    write_page [] [] cFooterBadUs =
      some ([] ++ pageBytes [] cFooterBadUs,
            { offset := 0, size := (pageBytes [] cFooterBadUs).length }) ∧
    read_and_decompress_page_
      { verify_checksum := true, use_page_cache := false, codec := none,
        pre_decode := false, preDecoder := none,
        page_pointer := { offset := 0, size := (pageBytes [] cFooterBadUs).length } }
      none ([] ++ pageBytes [] cFooterBadUs) = .corruption .noCodec := by
  constructor
  · rfl
  · decide

/-- Claim C3: write_page appends, in order, the body bytes, the
serialized footer, the footer's encoded length as 4 bytes little-endian,
and a 4-byte little-endian CRC32C computed over body+footer+footer-length;
it returns the pointer whose offset is the writer's position before the
write and whose size is the bytes written, which equals
body size + footer size + 4 + 4. -/
theorem c3_write_page_layout (file : List Nat) (body : List (List Nat))
    (footer : PageFooterPB) (hok : footerOk footer = true) :
    write_page file body footer =
      some (file ++ pageBytes body footer,
            { offset := file.length, size := (pageBytes body footer).length }) ∧
    pageBytes body footer =
      body.flatten ++ serializeFooterPB footer ++
      encode_fixed32_le (serializeFooterPB footer).length ++
      encode_fixed32_le (crc32c (body.flatten ++ serializeFooterPB footer ++
        encode_fixed32_le (serializeFooterPB footer).length)) ∧
    (pageBytes body footer).length =
      compute_total_size body + (serializeFooterPB footer).length + 4 + 4 := by
  refine ⟨by rw [write_page, if_pos hok], ?_, ?_⟩
  · rw [pageBytes, pageChecksumInput, length_serializeFooterPB]
  · rw [length_pageBytes, length_serializeFooterPB]

theorem c3_layout_witness :
    footerOk cFooter1 = true ∧
    write_page [] cBody1 cFooter1 =
      some ([] ++ pageBytes cBody1 cFooter1,
            { offset := 0, size := (pageBytes cBody1 cFooter1).length }) := by
  refine ⟨by decide, ?_⟩
  have h := (c3_write_page_layout [] cBody1 cFooter1 (by decide)).1
  simpa using h

/-- Claim C4 (amended): for every written page and every single-byte
corruption of its stored bytes, a read with checksum verification enabled
fails with a checksum-mismatch Corruption; with verification disabled the
read performs no checksum comparison, so it never fails with a
checksum-mismatch Corruption (though later checks may still fail). -/
theorem c4_checksum_sensitivity (file : List Nat) (body : List (List Nat))
    (footer : PageFooterPB) (u w : List Nat) (b c : Nat)
    (hb : ∀ x ∈ body.flatten, x < 256)
    (hsplit : pageBytes body footer = u ++ b :: w)
    (hc : c < 256) (hne : c ≠ b) :
    (∀ (pc pd : Bool) (codec : Option Codec)
       (pdec : Option (List Nat → Nat → Except Unit (List Nat))),
      read_and_decompress_page_
        { verify_checksum := true, use_page_cache := pc, codec := codec, pre_decode := pd,
          preDecoder := pdec,
          page_pointer := { offset := file.length, size := (pageBytes body footer).length } }
        none (file ++ (u ++ c :: w)) = .corruption .checksumMismatch) ∧
    (∀ (opts : PageReadOptions) (cached : Option (List Nat)) (file2 : List Nat),
      opts.verify_checksum = false →
      read_and_decompress_page_ opts cached file2 ≠ .corruption .checksumMismatch) := by
  constructor
  · intro pc pd codec pdec
    exact readFromFile_flip_corruption _ file body footer u w b c hb hsplit hc hne
      rfl rfl rfl
  · intro opts cached file2 hv
    exact read_disabled_no_checksum_failure opts hv cached file2

set_option maxRecDepth 100000 in
theorem c4_sensitivity_witness :
    (∀ x ∈ cBody1.flatten, x < 256) ∧
    pageBytes cBody1 cFooter1 = [] ++ 7 :: (pageBytes cBody1 cFooter1).drop 1 ∧
    (9 : Nat) < 256 ∧ (9 : Nat) ≠ 7 ∧
    read_and_decompress_page_
      { verify_checksum := true, use_page_cache := false, codec := none, pre_decode := false,
        preDecoder := none,
        page_pointer := { offset := 0, size := (pageBytes cBody1 cFooter1).length } }
      none ([] ++ ([] ++ 9 :: (pageBytes cBody1 cFooter1).drop 1)) =
      .corruption .checksumMismatch :=
  ⟨by decide, by decide, by decide, by decide,
    (c4_checksum_sensitivity [] cBody1 cFooter1 [] ((pageBytes cBody1 cFooter1).drop 1) 7 9
      (by decide) (by decide) (by decide) (by decide)).1 false false none none⟩

set_option maxRecDepth 100000 in
theorem c4_counterexample :
    pageBytes cBody1 cFooter1 =
      (pageBytes cBody1 cFooter1).take 5 ++ 2 :: (pageBytes cBody1 cFooter1).drop 6 ∧
    (3 : Nat) ≠ 2 ∧ (3 : Nat) < 256 ∧
    read_and_decompress_page_
      { verify_checksum := false, use_page_cache := false, codec := none, pre_decode := false,
        preDecoder := none,
        page_pointer := { offset := 0, size := (pageBytes cBody1 cFooter1).length } }
      none ((pageBytes cBody1 cFooter1).take 5 ++ 3 :: (pageBytes cBody1 cFooter1).drop 6) =
      .corruption .noCodec := by
  refine ⟨by decide, by decide, by decide, by decide⟩

/-- Claim C5 (amended): a page read that is not served from the page
cache, and whose `read_at` succeeds, returns a Corruption status exactly
when one of these holds: the page pointer's size is below 8 bytes; with
verification enabled the stored checksum differs from the recomputed
CRC32C; the footer bytes fail to parse; the body size differs from the
footer's declared uncompressed_size but no decompressor codec is
configured; or decompression yields a length different from the declared
uncompressed_size. -/
theorem c5_corruption_conditions (opts : PageReadOptions) (file : List Nat)
    (hread : opts.page_pointer.offset + opts.page_pointer.size ≤ file.length) :
    (∃ r, read_and_decompress_page_ opts none file = .corruption r) ↔
      (opts.page_pointer.size < 8 ∨
       (opts.verify_checksum = true ∧
         checksumMismatchCond (pageSliceAt file opts.page_pointer) = true) ∨
       footerParseFails
         ((pageSliceAt file opts.page_pointer).take
           ((pageSliceAt file opts.page_pointer).length - 4)) = true ∨
       bodySizeMismatchNoCodec opts.codec.isNone
         ((pageSliceAt file opts.page_pointer).take
           ((pageSliceAt file opts.page_pointer).length - 4)) = true ∨
       decompressLenMismatch opts.codec
         ((pageSliceAt file opts.page_pointer).take
           ((pageSliceAt file opts.page_pointer).length - 4)) = true) :=
  readFromFile_corruption_iff opts file hread

set_option maxRecDepth 100000 in
theorem c5_conditions_witness :
    ((0 : Nat) + (pageBytes cBody1 cFooter1).length ≤ (pageBytes cBody1 cFooter1).length) ∧
    ((∃ r, read_and_decompress_page_
        { verify_checksum := true, use_page_cache := false, codec := none,
          pre_decode := false, preDecoder := none,
          page_pointer := { offset := 0, size := (pageBytes cBody1 cFooter1).length } }
        none (pageBytes cBody1 cFooter1) = .corruption r) ↔
      ((pageBytes cBody1 cFooter1).length < 8 ∨
       (true = true ∧
         checksumMismatchCond (pageSliceAt (pageBytes cBody1 cFooter1)
           { offset := 0, size := (pageBytes cBody1 cFooter1).length }) = true) ∨
       footerParseFails
         ((pageSliceAt (pageBytes cBody1 cFooter1)
             { offset := 0, size := (pageBytes cBody1 cFooter1).length }).take
           ((pageSliceAt (pageBytes cBody1 cFooter1)
             { offset := 0, size := (pageBytes cBody1 cFooter1).length }).length - 4)) = true ∨
       bodySizeMismatchNoCodec true
         ((pageSliceAt (pageBytes cBody1 cFooter1)
             { offset := 0, size := (pageBytes cBody1 cFooter1).length }).take
           ((pageSliceAt (pageBytes cBody1 cFooter1)
             { offset := 0, size := (pageBytes cBody1 cFooter1).length }).length - 4)) = true ∨
       decompressLenMismatch none
         ((pageSliceAt (pageBytes cBody1 cFooter1)
             { offset := 0, size := (pageBytes cBody1 cFooter1).length }).take
           ((pageSliceAt (pageBytes cBody1 cFooter1)
             { offset := 0, size := (pageBytes cBody1 cFooter1).length }).length - 4)) = true)) :=
  ⟨by decide,
    c5_corruption_conditions
      { verify_checksum := true, use_page_cache := false, codec := none,
        pre_decode := false, preDecoder := none,
        page_pointer := { offset := 0, size := (pageBytes cBody1 cFooter1).length } }
      (pageBytes cBody1 cFooter1) (by decide)⟩

set_option maxRecDepth 100000 in
theorem c5_counterexample :
    read_and_decompress_page_
      { verify_checksum := true, use_page_cache := false, codec := none, pre_decode := false,
        preDecoder := none,
        page_pointer := { offset := 0, size := (pageBytes cBody1 cFooter1).length } }
      none (9 :: (pageBytes cBody1 cFooter1).drop 1) = .corruption .checksumMismatch ∧
    ¬((pageBytes cBody1 cFooter1).length < 8) ∧
    footerParseFails
      ((pageSliceAt (9 :: (pageBytes cBody1 cFooter1).drop 1)
          { offset := 0, size := (pageBytes cBody1 cFooter1).length }).take
        ((pageSliceAt (9 :: (pageBytes cBody1 cFooter1).drop 1)
          { offset := 0, size := (pageBytes cBody1 cFooter1).length }).length - 4)) = false ∧
    bodySizeMismatchNoCodec true
      ((pageSliceAt (9 :: (pageBytes cBody1 cFooter1).drop 1)
          { offset := 0, size := (pageBytes cBody1 cFooter1).length }).take
        ((pageSliceAt (9 :: (pageBytes cBody1 cFooter1).drop 1)
          { offset := 0, size := (pageBytes cBody1 cFooter1).length }).length - 4)) = false ∧
    decompressLenMismatch none
      ((pageSliceAt (9 :: (pageBytes cBody1 cFooter1).drop 1)
          { offset := 0, size := (pageBytes cBody1 cFooter1).length }).take
        ((pageSliceAt (9 :: (pageBytes cBody1 cFooter1).drop 1)
          { offset := 0, size := (pageBytes cBody1 cFooter1).length }).length - 4)) = false := by
  refine ⟨by decide, by decide, by decide, by decide, by decide⟩

/-- Claim C6 (amended): when the backing is a tiered (local-cache +
remote) reader, cloud mode is configured, and the first read attempt
fails with a Corruption-kind status, the wrapper invalidates the local
cache entry keyed by the hash of the file's basename, retries the same
read once, and if that also fails with Corruption retries a third time
using the remote reader directly; it makes at most 3 attempts and
surfaces the final status. A failure of any non-corruption kind is
returned immediately without retry, and the wrapper is a pass-through
when the backing is not tiered. -/
theorem c6_retry_wrapper :
    (∀ env : RetryEnv, env.cloudMode = true → env.tiered = true →
      env.fileCacheFound = true →
      env.doRead false env.cacheHasEntry = RStatus.corruption →
      (read_and_decompress_page env).invalidated =
        [env.hash (basename_after_slash env.path)] ∧
      (env.doRead false false ≠ RStatus.corruption →
        read_and_decompress_page env =
          { status := env.doRead false false, attempts := [false, false],
            invalidated := [env.hash (basename_after_slash env.path)] }) ∧
      (env.doRead false false = RStatus.corruption →
        read_and_decompress_page env =
          { status := env.doRead true false, attempts := [false, false, true],
            invalidated := [env.hash (basename_after_slash env.path)] })) ∧
    (∀ env : RetryEnv, env.doRead false env.cacheHasEntry ≠ RStatus.corruption →
      read_and_decompress_page env =
        { status := env.doRead false env.cacheHasEntry, attempts := [false],
          invalidated := [] }) ∧
    (∀ env : RetryEnv, env.tiered = false →
      read_and_decompress_page env =
        { status := env.doRead false env.cacheHasEntry, attempts := [false],
          invalidated := [] }) ∧
    (∀ env : RetryEnv, (read_and_decompress_page env).attempts.length ≤ 3) := by
  refine ⟨?_, retry_passthrough_non_corruption, retry_passthrough_not_tiered,
    retry_attempts_le_three⟩
  intro env h1 h2 h3 h4
  have h := retry_corrupt_cloud_tiered env h1 h2 h3 h4
  exact ⟨h.1, h.2.1, h.2.2⟩

theorem c6_retry_witness :
    envCloud.doRead false envCloud.cacheHasEntry = RStatus.corruption ∧
    envCloud.doRead false false = RStatus.corruption ∧
    read_and_decompress_page envCloud =
      { status := RStatus.ok, attempts := [false, false, true], invalidated := [5] } :=
  ⟨by decide, by decide,
    ((c6_retry_wrapper.1 envCloud rfl rfl rfl (by decide)).2.2 (by decide)).trans (by decide)⟩

theorem c6_counterexample :
    envNoCloud.tiered = true ∧
    envNoCloud.doRead false envNoCloud.cacheHasEntry = RStatus.corruption ∧
    read_and_decompress_page envNoCloud =
      { status := RStatus.corruption, attempts := [false], invalidated := [] } :=
  ⟨by decide, by decide, by decide⟩

/-- Claim C7: a nonempty compressed body is produced only when the
achieved space saving `1 - compressed/uncompressed` is positive, at least
the configured minimum, and hence the compressed body is strictly
smaller; a raw-stored page's stored body size equals the declared
uncompressed_size; and a reader treats the body as compressed exactly
when the stored body size differs from the declared uncompressed_size
(equal sizes: the result never consults the codec; different sizes with
no codec: Corruption). -/
theorem c7_compression_threshold :
    (∀ (c : Codec) (m : Rat) (body : List (List Nat)) (cb : List Nat),
      compress_page_body (some c) m body = .ok cb → cb ≠ [] →
      cb.length < compute_total_size body ∧
      0 < 1 - (cb.length : Rat) / (compute_total_size body : Rat) ∧
      m ≤ 1 - (cb.length : Rat) / (compute_total_size body : Rat)) ∧
    (∀ (body : List (List Nat)) (footer : PageFooterPB),
      footer.uncompressed_size = some (compute_total_size body) →
      (pageBytes body footer).length - (serializeFooterPB footer).length - 8 =
        footer.uncompressed_size.getD 0) ∧
    (∀ (opts : PageReadOptions) (file : List Nat) (body : List (List Nat))
       (footer : PageFooterPB),
      wfFooter footer = true → (∀ x ∈ body.flatten, x < 256) →
      opts.page_pointer.offset = file.length →
      opts.page_pointer.size = (pageBytes body footer).length →
      (compute_total_size body ≠ footer.uncompressed_size.getD 0 → opts.codec = none →
        readFromFile opts (file ++ pageBytes body footer) = .corruption .noCodec) ∧
      (compute_total_size body = footer.uncompressed_size.getD 0 →
        ∀ codec2 : Option Codec,
          readFromFile opts (file ++ pageBytes body footer) =
          readFromFile { opts with codec := codec2 } (file ++ pageBytes body footer))) := by
  refine ⟨?_, ?_, ?_⟩
  · intro c m body cb h hne
    rcases compress_page_body_shrinks c m body cb h with rfl | ⟨hlt, hok⟩
    · exact absurd rfl hne
    · have hspec := spaceSavingOk_spec hok
      exact ⟨hlt, hspec.2.1, hspec.2.2⟩
  · intro body footer hus
    rw [length_pageBytes, length_serializeFooterPB, hus]
    rfl
  · intro opts file body footer hwf hb hoff hsize
    constructor
    · intro hne hcodec
      rw [readFromFile_write_page_eq opts file body footer hwf hb hoff hsize,
        if_pos hne, decompressPath_codec_none opts hcodec]
    · intro heq codec2
      rw [readFromFile_write_page_eq opts file body footer hwf hb hoff hsize,
        readFromFile_write_page_eq { opts with codec := codec2 } file body footer hwf hb
          hoff hsize,
        if_neg (by omega), if_neg (by omega)]
      exact finalizePage_codec_independent _ _ rfl rfl _ _ _

set_option maxRecDepth 100000 in
theorem c7_threshold_witness :
    compress_page_body (some cCodec) (mkRat 1 10) [[1, 2, 3]] = .ok [1] ∧
    ([1] : List Nat) ≠ [] ∧
    ((1 : Nat) < compute_total_size [[1, 2, 3]] ∧
      0 < 1 - ((1 : Nat) : Rat) / ((compute_total_size [[1, 2, 3]] : Nat) : Rat) ∧
      mkRat 1 10 ≤ 1 - ((1 : Nat) : Rat) / ((compute_total_size [[1, 2, 3]] : Nat) : Rat)) :=
  ⟨by rfl, by decide,
    c7_compression_threshold.1 cCodec (mkRat 1 10) [[1, 2, 3]] [1] (by rfl) (by decide)⟩

/-- Claim C10: compress_page_body never produces a compressed body at
least as large as the input: it either returns the empty slice (store the
raw body) or a strictly smaller compressed body; with a null codec, or
when the input exceeds the codec's maximum compressible length, it always
returns the empty slice. -/
theorem c10_compress_never_expands :
    (∀ (c : Codec) (m : Rat) (body : List (List Nat)) (cb : List Nat),
      compress_page_body (some c) m body = .ok cb →
      cb = [] ∨ cb.length < compute_total_size body) ∧
    (∀ (m : Rat) (body : List (List Nat)), compress_page_body none m body = .ok []) ∧
    (∀ (c : Codec) (m : Rat) (body : List (List Nat)),
      c.maxCompressLen < compute_total_size body →
      compress_page_body (some c) m body = .ok []) := by
  refine ⟨?_, compress_page_body_none, compress_page_body_exceed⟩
  intro c m body cb h
  rcases compress_page_body_shrinks c m body cb h with rfl | ⟨hlt, _⟩
  · exact Or.inl rfl
  · exact Or.inr hlt

set_option maxRecDepth 100000 in
theorem c10_compress_witness :
    compress_page_body (some cCodec) (mkRat 1 10) [[1, 2, 3]] = .ok [1] ∧
    (([1] : List Nat) = [] ∨ ([1] : List Nat).length < compute_total_size [[1, 2, 3]]) ∧
    cCodec.maxCompressLen < compute_total_size [[List.replicate 200 0].flatten] ∧
    compress_page_body (some cCodec) (mkRat 1 10) [[List.replicate 200 0].flatten] = .ok [] :=
  ⟨by rfl,
    c10_compress_never_expands.1 cCodec (mkRat 1 10) [[1, 2, 3]] [1] (by rfl),
    by decide,
    c10_compress_never_expands.2.2 cCodec (mkRat 1 10) [[List.replicate 200 0].flatten]
      (by decide)⟩

/-- Claim C2 (spec-modelled): row-range resolution never loses rows.
When every applied index set contains at least the rows its predicate
matches (soundness of the index collaborator), the resolved row-ordinal
set is a superset of the key-range rows satisfying every predicate; a
predicate whose index is absent or failed is kept in the remaining list
and evaluated per row, so with exact index sets the final scan result is
the row-level filter of the key range by all predicates, independent of
which indexes failed. -/
theorem c2_row_resolution_superset :
    (∀ (rows : List (Nat → Int)) (keyRows : List Nat)
       (pio : List (ColumnPredicate × IndexOutcome)) (r : Nat),
      (∀ p s, (p, IndexOutcome.applied s) ∈ pio →
        ∀ q ∈ keyRows, predMatches rows p q = true → q ∈ s) →
      r ∈ keyRows → (∀ po ∈ pio, predMatches rows po.1 r = true) →
      r ∈ (get_row_ranges_by_column_conditions keyRows pio).1) ∧
    (∀ (rows : List (Nat → Int)) (keyRows : List Nat)
       (pio : List (ColumnPredicate × IndexOutcome)),
      (∀ p s, (p, IndexOutcome.applied s) ∈ pio →
        ∀ q ∈ keyRows, (s.contains q) = predMatches rows p q) →
      scanResultRows rows keyRows pio =
        keyRows.filter (fun r => pio.all (fun po => predMatches rows po.1 r))) :=
  ⟨resolved_rows_superset, scanResultRows_exact⟩

theorem c2_resolution_witness :
    (0 ∈ ([0, 1, 2] : List Nat)) ∧
    0 ∈ (get_row_ranges_by_column_conditions [0, 1, 2] cPio).1 ∧
    scanResultRows cRows [0, 1, 2] cPio =
      ([0, 1, 2] : List Nat).filter (fun r => cPio.all (fun po => predMatches cRows po.1 r)) :=
  ⟨by decide,
    c2_row_resolution_superset.1 cRows [0, 1, 2] cPio 0
      (by intro p s h q hq hm; simp [cPio] at h)
      (by decide)
      (by intro po hpo; simp [cPio] at hpo; subst hpo; decide),
    c2_row_resolution_superset.2 cRows [0, 1, 2] cPio
      (by intro p s h q hq; simp [cPio] at h)⟩

/-- Claim C8 (spec-modelled): next_batch returns OK with eof = false
while undelivered rows remain, delivering up to the batch limit
(including the final partial batch); once no rows remain it returns OK
with eof = true and zero rows; in particular an empty resolved row set
makes the very first call return eof = true with zero output rows. -/
theorem c8_next_batch_eof :
    (∀ (lim : Nat) (rem : List Nat), rem ≠ [] →
      next_batch lim rem = (RStatus.ok, rem.take lim, false, rem.drop lim) ∧
      (0 < lim → (next_batch lim rem).2.1 ≠ [])) ∧
    (∀ lim : Nat, next_batch lim [] = (RStatus.ok, [], true, [])) ∧
    (∀ (lim : Nat) (rows : List (Nat → Int)) (keyRows : List Nat)
       (pio : List (ColumnPredicate × IndexOutcome)),
      scanResultRows rows keyRows pio = [] →
      next_batch lim (scanResultRows rows keyRows pio) = (RStatus.ok, [], true, [])) := by
  refine ⟨?_, ?_, ?_⟩
  · intro lim rem hrem
    have hne : rem.isEmpty = false := by
      cases rem
      · exact absurd rfl hrem
      · rfl
    constructor
    · rw [next_batch, hne]
      simp
    · intro hlim
      rw [next_batch, hne]
      simp only [Bool.false_eq_true, if_false]
      rcases rem with _ | ⟨a, rem⟩
      · exact absurd rfl hrem
      · rcases lim with _ | lim
        · exact absurd hlim (by omega)
        · simp [List.take_succ_cons]
  · intro lim
    rfl
  · intro lim rows keyRows pio h
    rw [h]
    rfl

theorem c8_eof_witness :
    (([4, 5, 6] : List Nat) ≠ []) ∧
    next_batch 2 [4, 5, 6] = (RStatus.ok, [4, 5], false, [6]) ∧
    next_batch 2 [] = (RStatus.ok, [], true, []) :=
  ⟨by decide,
    by
      have h := (c8_next_batch_eof.1 2 [4, 5, 6] (by decide)).1
      simpa using h,
    c8_next_batch_eof.2.1 2⟩

/-- Claim C9: a read served from the page cache returns the cached bytes
directly: the result equals the cache-hit path applied to the cached
slice alone, independent of the checksum-verification flag, the codec,
the pre-decode options, the page pointer and the file contents (so no
8-byte size check, no CRC32C comparison, no decompression and no
pre-decoding happen); the only possible outcomes are the parsed footer
with the cached body, or a Corruption status when the cached footer bytes
fail to parse. -/
theorem c9_cache_hit_path (v : Bool) (codec : Option Codec) (pd : Bool)
    (pdec : Option (List Nat → Nat → Except Unit (List Nat))) (ptr : PagePointer)
    (file ps : List Nat) :
    read_and_decompress_page_
      { verify_checksum := v, use_page_cache := true, codec := codec, pre_decode := pd,
        preDecoder := pdec, page_pointer := ptr } (some ps) file = readCacheHit ps ∧
    ((∃ f, parseFooterPB (cachedFooterBytes ps) = some f ∧
        cachedFooterSize ps + 4 ≤ ps.length ∧
        readCacheHit ps = .ok (cachedBody ps) f) ∨
      readCacheHit ps = .corruption .badFooter) := by
  constructor
  · rfl
  · by_cases hg : cachedFooterSize ps + 4 ≤ ps.length
    · cases hp : parseFooterPB (cachedFooterBytes ps) with
      | none =>
        right
        rw [readCacheHit, if_pos hg, hp]
      | some f =>
        left
        exact ⟨f, rfl, hg, by rw [readCacheHit, if_pos hg, hp]⟩
    · right
      rw [readCacheHit, if_neg hg]
